import Mathlib

/-!
Shallow embedding of the checkpoint-ingestion layer of the
EfficientNet_Flutter_API repository: the Storage Blob Index and the
Reference Resolver implemented by `src/backend/convert_final.py`,
`src/backend/convert_model_v2.py` and `src/backend/convert_model_v3.py`.

Machine bytes are modelled as `Nat` values (each reduced mod 256 when
assembled); storages carry their elements as width-byte bit patterns
assembled in little-endian (native) byte order.  Fallible code returns
`Except`/`Option`.  All definitions are executable.
-/

namespace EffNetConvert

/-- Element types of the resolver's dispatch tables (`torch.float32`,
`torch.int64`, ...).  `u8` is unsigned 8-bit (`torch.uint8`), `i8` is
signed 8-bit (`torch.int8`), `boolT` is `torch.bool`. -/
inductive DType where
  | f32 | f64 | f16 | i32 | i64 | i16 | u8 | i8 | boolT
  deriving DecidableEq, Repr

/-- Byte width of each element type, as used by `torch.frombuffer`. -/
def DType.width : DType → Nat
  | .f32 => 4
  | .f64 => 8
  | .f16 => 2
  | .i32 => 4
  | .i64 => 8
  | .i16 => 2
  | .u8 => 1
  | .i8 => 1
  | .boolT => 1

/-- Python values that flow through the resolver: persistent-id tuples,
state-dict mappings, strings, integers, `None`, torch storage classes
(`saved_id[1]` in `convert_final.py` is the class object itself), and
materialized storages (elements are width-byte bit patterns). -/
inductive PyVal where
  | vNone
  | vInt (n : Int)
  | vStr (s : String)
  | classObj (name : String)
  | storageObj (dtype : DType) (elems : List Nat)
  | dict (entries : List (String × PyVal))
  | tup (elems : List PyVal)

/-- Python `str()` of a value, as taken of `saved_id[1]` by
`convert_final.py` line 78 (`storage_class_str = str(storage_class)`). -/
def pyStr : PyVal → String
  | .vNone => "None"
  | .vInt n => toString n
  | .vStr s => s
  | .classObj name => "<class 'torch." ++ name ++ "'>"
  | .storageObj _ _ => "<torch storage>"
  | .dict _ => "<dict>"
  | .tup _ => "<tuple>"

/-- ASCII decimal digit test. -/
def isDigitCh (c : Char) : Bool := '0' ≤ c && c ≤ '9'

/-- ASCII whitespace stripped by Python's `int(str)` conversion. -/
def isWsp (c : Char) : Bool :=
  c = ' ' || c = '\t' || c = '\n' || c = '\r' || c = '\x0b' || c = '\x0c'

/-- Strip whitespace from both ends of a character list. -/
def stripWsBoth (cs : List Char) : List Char :=
  ((cs.dropWhile isWsp).reverse.dropWhile isWsp).reverse

/-- Decimal value of a digit character. -/
def dval (c : Char) : Nat := c.toNat - 48

/-- Continuation of Python's base-10 digit parser: after at least one
digit, a single underscore may separate groups of digits (PEP 515). -/
def pyDigitsCore : List Char → Nat → Option Nat
  | [], acc => some acc
  | '_' :: rest, acc =>
    match rest with
    | c :: rest2 => if isDigitCh c then pyDigitsCore rest2 (acc * 10 + dval c) else none
    | [] => none
  | c :: rest, acc => if isDigitCh c then pyDigitsCore rest (acc * 10 + dval c) else none

/-- Parse a nonempty digit group (with optional internal underscores). -/
def pyParseDigits : List Char → Option Nat
  | [] => none
  | c :: rest => if isDigitCh c then pyDigitsCore rest (dval c) else none

/-- Python's `int(s)` conversion on a string: surrounding whitespace,
optional sign, base-10 digits with optional single underscores between
digits; `none` models the `ValueError` raised otherwise.  (Python also
accepts non-ASCII digits and whitespace; the repository only ever meets
ASCII file names and indices.) -/
def pyIntOfStr (s : String) : Option Int :=
  match stripWsBoth s.data with
  | '+' :: rest => (pyParseDigits rest).map Int.ofNat
  | '-' :: rest => (pyParseDigits rest).map (fun n => -(n : Int))
  | cs => (pyParseDigits cs).map Int.ofNat

/-- Python's `int(x)` on a resolver value: integers pass through,
strings are parsed, everything else raises `TypeError` (`none`). -/
def pyIntCoerce : PyVal → Option Int
  | .vInt n => some n
  | .vStr s => pyIntOfStr s
  | _ => none

/-- Leading-match test on character lists. -/
def listLE : List Char → List Char → Bool
  | [], _ => true
  | _ :: _, [] => false
  | a :: as, b :: bs => a = b && listLE as bs

/-- Python's `needle in hay` substring containment on strings. -/
def strContains (hay needle : String) : Bool :=
  hay.data.tails.any fun t => listLE needle.data t

/-- Python's `tag != 'storage'` test, negated: only the exact string
`"storage"` passes (comparison with any non-equal value is `True` and
raises the tag error in the source). -/
def isStorageTag : PyVal → Bool
  | .vStr s => s = "storage"
  | _ => false

/-- Tuple test (`isinstance(saved_id, tuple)`). -/
def pyIsTuple : PyVal → Bool
  | .tup _ => true
  | _ => false

/-- String test (a non-string left operand of `'Float' in x` raises
`TypeError` in Python). -/
def pyIsStr : PyVal → Bool
  | .vStr _ => true
  | _ => false

/-- Integer test (only an integer value can match an integer key of the
blob index in a membership test). -/
def pyIsInt : PyVal → Bool
  | .vInt _ => true
  | _ => false

/-- Raw contents of one storage blob file, as a byte list. -/
abbrev Blob := List Nat

/-- The Storage Blob Index: insertion-ordered association list from
integer index to blob, mirroring a Python `dict`. -/
abbrev StorageMap := List (Int × Blob)

/-- Lookup in a Python-dict association list (first matching key; the
update operation keeps keys unique). -/
def dictLookup (m : StorageMap) (k : Int) : Option Blob :=
  match m with
  | [] => none
  | (k2, v) :: rest => if k2 = k then some v else dictLookup rest k

/-- Python `dict` assignment `m[k] = v`: an existing key keeps its
insertion position and gets the new value, a new key is appended. -/
def dictSet (m : StorageMap) (k : Int) (v : Blob) : StorageMap :=
  if m.any (fun p => p.1 = k) then
    m.map fun p => if p.1 = k then (k, v) else p
  else
    m ++ [(k, v)]

/-- Key list of the index (`storage_data.keys()`). -/
def dictKeys (m : StorageMap) : List Int := m.map Prod.fst

/-- Insertion into an ascending list of integers. -/
def insertInt (n : Int) : List Int → List Int
  | [] => [n]
  | m :: ms => if n ≤ m then n :: m :: ms else m :: insertInt n ms

/-- Python's `sorted` on integer keys (ascending insertion sort). -/
def sortInts : List Int → List Int
  | [] => []
  | n :: ns => insertInt n (sortInts ns)

/-- Lexicographic order on strings by character code points, the order
`sorted` uses on the path names. -/
def lexLe : List Char → List Char → Bool
  | [], _ => true
  | _ :: _, [] => false
  | a :: as, b :: bs => if a = b then lexLe as bs else decide (a < b)

/-- Insertion into a name-sorted list of directory entries. -/
def insertByName (e : String × Blob) : List (String × Blob) → List (String × Blob)
  | [] => [e]
  | f :: fs => if lexLe e.1.data f.1.data then e :: f :: fs else f :: insertByName e fs

/-- Python's `sorted` over the globbed file list (stable insertion sort
by name; entries of one directory are ordered by their names). -/
def sortByName : List (String × Blob) → List (String × Blob)
  | [] => []
  | e :: es => insertByName e (sortByName es)

/-- Errors raised by `torch.frombuffer` (`tensor_frombuffer` checks the
buffer is nonempty, then that its length is a multiple of the element
size). -/
inductive FBError where
  | emptyBuffer
  | notMultiple
  deriving DecidableEq, Repr

/-- Assemble a byte chunk into its little-endian (native-order) value. -/
def leVal : List Nat → Nat
  | [] => 0
  | b :: bs => b % 256 + 256 * leVal bs

/-- Fueled exact chunking of a byte list into width-`w` groups (fuel is
an upper bound on the list length, so the definition is structural and
kernel-reducible). -/
def chunksGo : Nat → Nat → List Nat → List (List Nat)
  | 0, _, _ => []
  | _, _, [] => []
  | fuel + 1, w, l => l.take w :: chunksGo fuel w (l.drop w)

/-- Chunk a byte list into width-`w` groups. -/
def chunksExact (w : Nat) (l : List Nat) : List (List Nat) := chunksGo l.length w l

/-- Model of `torch.frombuffer(raw_bytes, dtype=dt)`: rejects an empty
buffer, rejects a length that is not a multiple of the element width,
and otherwise yields the flat element list, each element the
little-endian bit pattern of its width-byte chunk. -/
def frombuffer (dt : DType) (bytes : List Nat) : Except FBError (List Nat) :=
  if bytes.length = 0 then .error .emptyBuffer
  else if bytes.length % dt.width ≠ 0 then .error .notMultiple
  else .ok ((chunksExact dt.width bytes).map leVal)

/-- Reasons for the `RuntimeError`s raised on a structurally invalid
persistent id. -/
inductive RefError where
  | badShape
  | badTag
  | badIndex
  deriving DecidableEq, Repr

/-- Error taxonomy of the resolution path.  Every constructor is a
`RuntimeError`/`ValueError` that aborts the enclosing conversion. -/
inductive ConvError where
  | dataPklMissing
  | malformedRef (r : RefError)
  | missingStorage (requested : Int) (availableSample : List Int)
  | missingStorageNoSample (requested : PyVal)
  | unknownStorageType (descriptor : String)
  | frombufferError (e : FBError)
  | typeErr

/-- A materialized storage: element type plus flat element bit patterns. -/
structure Storage where
  dtype : DType
  elems : List Nat

/-- Result of `convert_final.py`'s `persistent_load`: the storage plus
whether the unknown-storage-class float32 fallback warning was printed. -/
structure PLoad where
  storage : Storage
  warnedDefault : Bool

/-- Dtype dispatch of `convert_final.py` lines 80-99: substring tests on
`str(storage_class)` in source order; an unrecognized class string falls
back to float32 and prints a warning (the `Bool` component). -/
def finalDtype (s : String) : DType × Bool :=
  if strContains s "FloatStorage" then (.f32, false)
  else if strContains s "DoubleStorage" then (.f64, false)
  else if strContains s "HalfStorage" then (.f16, false)
  else if strContains s "IntStorage" then (.i32, false)
  else if strContains s "LongStorage" then (.i64, false)
  else if strContains s "ShortStorage" then (.i16, false)
  else if strContains s "ByteStorage" || strContains s "CharStorage" then (.u8, false)
  else if strContains s "BoolStorage" then (.boolT, false)
  else (.f32, true)

/-- Dtype dispatch of `convert_model_v3.py` lines 72-91: substring tests
in source order; an unrecognized type string raises
`RuntimeError("Unknown storage type: ...")`. -/
def v3Dtype (s : String) : Except ConvError DType :=
  if strContains s "Float" then .ok .f32
  else if strContains s "Double" then .ok .f64
  else if strContains s "Half" then .ok .f16
  else if strContains s "Int" then .ok .i32
  else if strContains s "Long" then .ok .i64
  else if strContains s "Short" then .ok .i16
  else if strContains s "Byte" then .ok .u8
  else if strContains s "Char" then .ok .i8
  else if strContains s "Bool" then .ok .boolT
  else .error (.unknownStorageType s)

/-- Dtype dispatch of `convert_model_v2.py` lines 70-79: `Float` maps to
float32, `Int` or `Long` both map to int64, anything else is an unknown
storage type (the caller then returns `None`). -/
def v2Dtype (s : String) : Option DType :=
  if strContains s "Float" then some .f32
  else if strContains s "Int" || strContains s "Long" then some .i64
  else none

/-- The `persistent_load` closure of `convert_final.py` lines 50-105.
Validation order follows the source: tuple shape (length at least 4),
tag `"storage"`, string-to-int coercion of `saved_id[2]`, blob-index
membership (missing index reports the first 10 present indices in sorted
order), dtype dispatch on `str(saved_id[1])` with float32 fallback, then
`torch.frombuffer`. -/
def finalPersistentLoad (storageData : StorageMap) (savedId : PyVal) :
    Except ConvError PLoad :=
  match savedId with
  | .tup elems =>
    if elems.length < 4 then .error (.malformedRef .badShape)
    else
      let tag := elems.getD 0 .vNone
      let storageClass := elems.getD 1 .vNone
      let storageIdStr := elems.getD 2 .vNone
      if isStorageTag tag = false then .error (.malformedRef .badTag)
      else
        match pyIntCoerce storageIdStr with
        | none => .error (.malformedRef .badIndex)
        | some storageId =>
          match dictLookup storageData storageId with
          | none =>
            .error (.missingStorage storageId ((sortInts (dictKeys storageData)).take 10))
          | some rawBytes =>
            let dw := finalDtype (pyStr storageClass)
            match frombuffer dw.1 rawBytes with
            | .error e => .error (.frombufferError e)
            | .ok es => .ok ⟨⟨dw.1, es⟩, dw.2⟩
  | _ => .error (.malformedRef .badShape)

/-- The (reachable, top-level) `persistent_load` of `convert_model_v3.py`
lines 50-104.  Same shape/tag validation as `convert_final.py`, but the
storage index is `saved_id[3]` used without coercion (only an integer
value can hit an integer key of the index), the missing-storage error
carries no sample of present indices, and an unrecognized storage type
is a fatal error.  The device-string conversion of lines 93-97 never
affects the returned storage and is not modelled. -/
def v3PersistentLoad (storageData : StorageMap) (savedId : PyVal) :
    Except ConvError Storage :=
  match savedId with
  | .tup elems =>
    if elems.length < 4 then .error (.malformedRef .badShape)
    else
      let tag := elems.getD 0 .vNone
      let storageType := elems.getD 1 .vNone
      let storageId := elems.getD 3 .vNone
      if isStorageTag tag = false then .error (.malformedRef .badTag)
      else
        match (match storageId with
              | .vInt n => dictLookup storageData n
              | _ => none) with
        | none => .error (.missingStorageNoSample storageId)
        | some rawBytes =>
          match storageType with
          | .vStr s =>
            match v3Dtype s with
            | .error e => .error e
            | .ok dt =>
              match frombuffer dt rawBytes with
              | .error e => .error (.frombufferError e)
              | .ok es => .ok ⟨dt, es⟩
          | other => .error (.unknownStorageType (pyStr other))
  | _ => .error (.malformedRef .badShape)

/-- The `persistent_load` of `convert_model_v2.py` lines 55-83.  It is
total: every failure path — non-tuple, tuple shorter than 3, the
`IndexError` on `saved_id[3]` for a 3-tuple, a non-string storage type
(`TypeError` in the `in` test), an index absent from `storage_files`, an
unknown storage type, or a `torch.frombuffer` error — is either an
explicit `return None` or an exception swallowed by the
`except Exception` handler, which also returns `None`. -/
def v2PersistentLoad (storageFiles : StorageMap) (savedId : PyVal) : Option Storage :=
  match savedId with
  | .tup elems =>
    if elems.length < 3 then none
    else if elems.length < 4 then none
    else
      let storageType := elems.getD 1 .vNone
      let storageIdx := elems.getD 3 .vNone
      match (match storageIdx with
            | .vInt n => dictLookup storageFiles n
            | _ => none) with
      | none => none
      | some data =>
        match storageType with
        | .vStr s =>
          match v2Dtype s with
          | none => none
          | some dt =>
            match frombuffer dt data with
            | .error _ => none
            | .ok es => some ⟨dt, es⟩
        | _ => none
  | _ => none

/-- Glob pattern `[0-9]*` of `convert_final.py` line 39: the name must
start with a decimal digit (the `*` matches any remainder, including
the empty one). -/
def globDigit (s : String) : Bool :=
  match s.data with
  | c :: _ => isDigitCh c
  | [] => false

/-- One step of the index build: record the entry under its parsed
integer name, silently skip a name `int()` rejects (`except ValueError:
pass`). -/
def buildStep (m : StorageMap) (e : String × Blob) : StorageMap :=
  match pyIntOfStr e.1 with
  | some idx => dictSet m idx e.2
  | none => m

/-- Storage Blob Index build of `convert_final.py` lines 38-45 (the
identical loop appears in `convert_model_v3.py` lines 38-45): iterate
`sorted(data_dir.glob('[0-9]*'))`, parse each name with `int`, read the
whole file, record `index -> bytes`; parse failures are skipped.  The
directory is modelled as its entry list (name, full contents). -/
def buildStorageData (entries : List (String × Blob)) : StorageMap :=
  (sortByName (entries.filter fun e => globDigit e.1)).foldl buildStep []

/-- Storage-file index build of `convert_model_v2.py` lines 44-50:
`data_dir.iterdir()` with no glob prefilter and no sort; any name
accepted by `int()` — including negative ones — is recorded.  The source
stores the file path and reads it at resolution time; with the on-disk
files immutable during a run this is observationally the contents. -/
def v2BuildStorageFiles (entries : List (String × Blob)) : StorageMap :=
  entries.foldl buildStep []

/-- Modelled from the spec: the spec's §4.1 build rule records exactly
the entries "whose name parses as a non-negative base-10 integer"; a
plain base-10 numeral is a nonempty string of decimal digits. -/
def specParsesNonNegBase10 (s : String) : Bool :=
  s.data ≠ [] && s.data.all isDigitCh

/-- First-order encoding of the `data.pkl` metadata stream: ordinary
values, out-of-band persistent references, and string-keyed mappings
(`dnil`/`dcons` spine).  `pickle.Unpickler` calls the registered
`persistent_load` on every reference and splices the returned storage
into the structure; any exception it raises aborts the whole `load()`. -/
inductive Meta where
  | leaf (v : PyVal)
  | pref (savedId : PyVal)
  | dnil
  | dcons (key : String) (val : Meta) (rest : Meta)

/-- Drive the deserialization with a resolution callback: references are
replaced by the callback's result, and the first raised error aborts the
whole load (keys are resolved in stream order).  A `dcons` whose spine
is not a mapping never arises from a well-formed stream; its value
defaults to restarting the mapping. -/
def resolveMetaWith (load : PyVal → Except ConvError PyVal) : Meta → Except ConvError PyVal
  | .leaf v => .ok v
  | .pref savedId => load savedId
  | .dnil => .ok (.dict [])
  | .dcons k m rest => do
    let v ← resolveMetaWith load m
    let r ← resolveMetaWith load rest
    match r with
    | .dict es => .ok (.dict ((k, v) :: es))
    | _ => .ok (.dict [(k, v)])

/-- Unpickling of `convert_final.py` lines 108-121, with its
`persistent_load` attached. -/
def resolveMetaFinal (storageData : StorageMap) (meta : Meta) : Except ConvError PyVal :=
  resolveMetaWith
    (fun savedId => (finalPersistentLoad storageData savedId).map
      fun p => .storageObj p.storage.dtype p.storage.elems)
    meta

/-- Unpickling of `convert_model_v3.py` lines 185-199, with its
`persistent_load` attached. -/
def resolveMetaV3 (storageData : StorageMap) (meta : Meta) : Except ConvError PyVal :=
  resolveMetaWith
    (fun savedId => (v3PersistentLoad storageData savedId).map
      fun st => .storageObj st.dtype st.elems)
    meta

/-- Lookup in a state-dict association list. -/
def sdLookup (es : List (String × PyVal)) (k : String) : Option PyVal :=
  match es with
  | [] => none
  | (k2, v) :: rest => if k2 = k then some v else sdLookup rest k

/-- Python's `"model" in state_dict` key-membership test. -/
def containsKey (es : List (String × PyVal)) (k : String) : Bool :=
  es.any fun p => p.1 = k

/-- Python's `state_dict["model"]` (only evaluated under a successful
membership test in the source). -/
def sdGet (es : List (String × PyVal)) (k : String) : PyVal :=
  (sdLookup es k).getD .vNone

/-- One wrapper-unwrap step, exactly `convert_final.py` lines 132-136:
replace a mapping that has a `"model"` key by the value stored under it;
leave a mapping without the key unchanged.  The source applies its `in`
test to whatever the first unwrap produced; the claims only exercise
mappings, and a non-mapping value is returned unchanged here. -/
def modelStep (sd : PyVal) : PyVal :=
  match sd with
  | .dict es => if containsKey es "model" = true then sdGet es "model" else .dict es
  | other => other

/-- Post-processing of `convert_final.py` lines 124-136: a first unwrap
only for a single-entry mapping with key `"model"` (lines 127-129),
followed by the second, unguarded-by-size check of lines 132-136
(`modelStep`). -/
def postProcessFinal (sd : PyVal) : PyVal :=
  match sd with
  | .dict entries =>
    modelStep (if entries.length = 1 ∧ containsKey entries "model" = true
               then sdGet entries "model" else .dict entries)
  | other => other

/-- Post-processing of `convert_model_v2.py` lines 114-126: a single
unwrap, applied only to a single-entry mapping with key `"model"`. -/
def postProcessV2 (sd : PyVal) : PyVal :=
  match sd with
  | .dict entries =>
    if entries.length = 1 ∧ containsKey entries "model" = true then sdGet entries "model"
    else .dict entries
  | other => other

/-- A saved-module directory: the parsed `data.pkl` stream (`none` when
the file is missing) and the entries of the `data` directory. -/
structure SavedModuleDir where
  dataPkl : Option Meta
  dataEntries : List (String × Blob)

/-- The resolution phase of `convert_final.py`'s `convert_to_pt` (lines
22-136), up to the state dict that is handed to the external
model-loading collaborator: build the blob index, unpickle with the
custom `persistent_load`, post-process the wrapper key.  Any resolution
error makes the conversion return `False` with no output written; that
abort is the `.error` case here. -/
def convertFinalLoad (dir : SavedModuleDir) : Except ConvError PyVal :=
  match dir.dataPkl with
  | none => .error .dataPklMissing
  | some meta =>
    (resolveMetaFinal (buildStorageData dir.dataEntries) meta).map postProcessFinal

/-- The corresponding resolution phase of `convert_model_v3.py`'s
`convert_to_pt` (lines 22-208). -/
def convertV3Load (dir : SavedModuleDir) : Except ConvError PyVal :=
  match dir.dataPkl with
  | none => .error .dataPklMissing
  | some meta =>
    (resolveMetaV3 (buildStorageData dir.dataEntries) meta).map
      fun sd =>
        match sd with
        | .dict entries =>
          if entries.length = 1 ∧ containsKey entries "model" = true then sdGet entries "model"
          else .dict entries
        | other => other

section Lemmas

theorem DType.width_pos (dt : DType) : 0 < dt.width := by
  cases dt <;> simp [DType.width]

@[simp] theorem dictLookup_nil (k : Int) : dictLookup [] k = none := rfl

@[simp] theorem dictLookup_cons (a : Int) (b : Blob) (rest : StorageMap) (k : Int) :
    dictLookup ((a, b) :: rest) k = if a = k then some b else dictLookup rest k := rfl

/-- Updating under key `k` rewrites every entry with key `k` (the lookup
sees the first) and touches nothing else. -/
theorem dictLookup_map_update (m : StorageMap) (k : Int) (v : Blob) (k' : Int) :
    dictLookup (m.map fun p => if p.1 = k then (k, v) else p) k' =
      if k' = k then (if m.any (fun p => p.1 = k) then some v else none)
      else dictLookup m k' := by
  induction m with
  | nil => by_cases h : k' = k <;> simp [h]
  | cons p ps ih =>
    obtain ⟨pk, pv⟩ := p
    simp only [List.map_cons, List.any_cons, Bool.or_eq_true, decide_eq_true_eq]
    by_cases hp : pk = k
    · by_cases hk : k' = k
      · subst hk; simp [hp]
      · have h3 : k ≠ k' := fun h => hk h.symm
        simp [hp, hk, h3, ih]
    · by_cases hq : pk = k'
      · have hk : k' ≠ k := fun h => hp (hq.trans h)
        simp [hp, hq, hk]
      · simp only [hp, if_false, dictLookup_cons, hq, ih]
        by_cases hk : k' = k
        · have hcond : ((ps.any fun p => decide (p.1 = k)) = true) ↔
              (False ∨ (ps.any fun p => decide (p.1 = k)) = true) := by simp
          rw [if_pos hk, if_pos hk]
          exact if_congr hcond rfl rfl
        · simp [hk, hp]

/-- Lookup distributes over append, preferring the left list. -/
theorem dictLookup_append (a b : StorageMap) (k : Int) :
    dictLookup (a ++ b) k =
      match dictLookup a k with
      | some v => some v
      | none => dictLookup b k := by
  induction a with
  | nil => simp
  | cons p ps ih =>
    obtain ⟨pk, pv⟩ := p
    by_cases hp : pk = k <;> simp [hp, ih]

/-- A key no entry carries is absent. -/
theorem dictLookup_eq_none_of_not_any (m : StorageMap) (k : Int)
    (h : m.any (fun p => p.1 = k) = false) : dictLookup m k = none := by
  induction m with
  | nil => rfl
  | cons p ps ih =>
    obtain ⟨pk, pv⟩ := p
    simp only [List.any_cons, Bool.or_eq_false_iff, decide_eq_false_iff_not] at h
    simp [h.1, ih h.2]

/-- Characterization of Python dict assignment. -/
theorem dictLookup_dictSet (m : StorageMap) (k : Int) (v : Blob) (k' : Int) :
    dictLookup (dictSet m k v) k' = if k' = k then some v else dictLookup m k' := by
  unfold dictSet
  by_cases hm : m.any (fun p => p.1 = k) = true
  · rw [if_pos hm, dictLookup_map_update, hm]
    by_cases hk : k' = k <;> simp [hk]
  · rw [if_neg hm, dictLookup_append]
    by_cases hk : k' = k
    · subst hk
      have hm' : m.any (fun p => p.1 = k') = false := by
        cases h : m.any (fun p => p.1 = k')
        · rfl
        · exact absurd h hm
      rw [dictLookup_eq_none_of_not_any m k' hm']
      simp
    · have h2 : k ≠ k' := fun h => hk h.symm
      cases h : dictLookup m k' <;> simp [h, hk, h2]

/-- An index is present after the build fold iff it came from the base
map or from an entry whose name `int()`-parses to it. -/
theorem dictLookup_foldl_buildStep_isSome (L : List (String × Blob)) (m : StorageMap)
    (idx : Int) :
    (dictLookup (L.foldl buildStep m) idx).isSome = true ↔
      (dictLookup m idx).isSome = true ∨ ∃ e ∈ L, pyIntOfStr e.1 = some idx := by
  induction L generalizing m with
  | nil => simp
  | cons e L ih =>
    have hstep : (dictLookup (buildStep m e) idx).isSome = true ↔
        (dictLookup m idx).isSome = true ∨ pyIntOfStr e.1 = some idx := by
      unfold buildStep
      cases hp : pyIntOfStr e.1 with
      | none => simp
      | some i =>
        rw [dictLookup_dictSet]
        by_cases hput : idx = i
        · simp [hput]
        · have hput2 : i ≠ idx := fun h => hput h.symm
          simp [hput, hput2]
    rw [List.foldl_cons, ih, hstep]
    simp only [List.mem_cons]
    constructor
    · rintro ((h | h) | ⟨f, hf, hp⟩)
      · exact Or.inl h
      · exact Or.inr ⟨e, Or.inl rfl, h⟩
      · exact Or.inr ⟨f, Or.inr hf, hp⟩
    · rintro (h | ⟨f, hf | hf, hp⟩)
      · exact Or.inl (Or.inl h)
      · exact Or.inl (Or.inr (hf ▸ hp))
      · exact Or.inr ⟨f, hf, hp⟩

/-- Every blob the build fold records is the contents of an entry whose
name `int()`-parses to its index. -/
theorem dictLookup_foldl_buildStep_provenance (L : List (String × Blob)) (m : StorageMap)
    (idx : Int) (b : Blob) :
    dictLookup (L.foldl buildStep m) idx = some b →
      dictLookup m idx = some b ∨ ∃ name, (name, b) ∈ L ∧ pyIntOfStr name = some idx := by
  induction L generalizing m with
  | nil => exact fun h => Or.inl h
  | cons e L ih =>
    intro h
    rw [List.foldl_cons] at h
    rcases ih _ h with h1 | ⟨name, hmem, hp⟩
    · unfold buildStep at h1
      cases hp : pyIntOfStr e.1 with
      | none => rw [hp] at h1; exact Or.inl h1
      | some i =>
        rw [hp, dictLookup_dictSet] at h1
        by_cases hik : idx = i
        · rw [if_pos hik] at h1
          refine Or.inr ⟨e.1, ?_, hik ▸ hp⟩
          have : e.2 = b := by injection h1
          exact this ▸ List.mem_cons_self _ _
        · rw [if_neg hik] at h1; exact Or.inl h1
    · exact Or.inr ⟨name, List.mem_cons_of_mem _ hmem, hp⟩

/-- Insertion preserves membership. -/
theorem mem_insertByName (e a : String × Blob) (l : List (String × Blob)) :
    a ∈ insertByName e l ↔ a = e ∨ a ∈ l := by
  induction l with
  | nil => simp [insertByName]
  | cons f fs ih =>
    unfold insertByName
    cases h : lexLe e.1.data f.1.data
    · rw [if_neg (by simp [h])]
      simp only [List.mem_cons, ih]
      tauto
    · rw [if_pos (by simp [h])]
      simp only [List.mem_cons]

/-- Sorting preserves membership. -/
theorem mem_sortByName (a : String × Blob) (l : List (String × Blob)) :
    a ∈ sortByName l ↔ a ∈ l := by
  induction l with
  | nil => simp [sortByName]
  | cons e es ih => simp [sortByName, mem_insertByName, ih, List.mem_cons]

/-- Number of exact chunks of a list whose length the width divides. -/
theorem chunksGo_length (fuel w : Nat) (l : List Nat) (hw : 0 < w)
    (hf : l.length ≤ fuel) (hd : w ∣ l.length) :
    (chunksGo fuel w l).length = l.length / w := by
  induction fuel generalizing l with
  | zero =>
    have : l = [] := List.length_eq_zero.mp (Nat.le_zero.mp hf)
    subst this; simp [chunksGo]
  | succ n ih =>
    cases l with
    | nil => simp [chunksGo]
    | cons a as =>
      have hL : 0 < (a :: as).length := by simp
      have hwL : w ≤ (a :: as).length := Nat.le_of_dvd hL hd
      have hdrop : ((a :: as).drop w).length = (a :: as).length - w := List.length_drop _ _
      have hfd : ((a :: as).drop w).length ≤ n := by
        rw [hdrop]; simp only [List.length_cons] at hf ⊢; omega
      have hdd : w ∣ ((a :: as).drop w).length := by
        rw [hdrop]; exact Nat.dvd_sub' hd dvd_rfl
      show ((a :: as).take w :: chunksGo n w ((a :: as).drop w)).length = _
      rw [List.length_cons, ih _ hfd hdd, hdrop]
      have heq : (a :: as).length = ((a :: as).length - w) + w := by omega
      have hdiv : (a :: as).length / w = ((a :: as).length - w) / w + 1 := by
        conv_lhs => rw [heq]
        rw [Nat.add_div_right _ hw]
      rw [hdiv]

/-- The `i`-th exact chunk is the `i*w`-offset width-`w` slice. -/
theorem chunksGo_get (fuel w : Nat) (l : List Nat) (i : Nat) (hw : 0 < w)
    (hf : l.length ≤ fuel) (hi : i * w < l.length) :
    (chunksGo fuel w l)[i]? = some ((l.drop (i * w)).take w) := by
  induction fuel generalizing l i with
  | zero =>
    have h0 : l.length = 0 := Nat.le_zero.mp hf
    exact absurd (h0 ▸ hi) (Nat.not_lt_zero _)
  | succ n ih =>
    cases l with
    | nil => simp at hi
    | cons a as =>
      cases i with
      | zero =>
        show ((a :: as).take w :: chunksGo n w ((a :: as).drop w))[0]? = _
        simp
      | succ j =>
        show ((a :: as).take w :: chunksGo n w ((a :: as).drop w))[j + 1]? = _
        rw [List.getElem?_cons_succ]
        have hdrop : ((a :: as).drop w).length = (a :: as).length - w := List.length_drop _ _
        have hdf : ((a :: as).drop w).length ≤ n := by
          rw [hdrop]; simp only [List.length_cons] at hf ⊢; omega
        have hji : j * w < ((a :: as).drop w).length := by
          rw [hdrop]
          have hexp : (j + 1) * w = j * w + w := by ring
          rw [hexp] at hi
          omega
        rw [ih _ _ hdf hji, List.drop_drop]
        congr 2
        rw [Nat.succ_mul, Nat.add_comm w (j * w)]

/-- Successful `frombuffer` characterization: a nonempty buffer whose
length is an exact multiple of the width yields the chunked elements. -/
theorem frombuffer_ok (dt : DType) (bytes : List Nat) (hne : bytes ≠ [])
    (hmod : bytes.length % dt.width = 0) :
    frombuffer dt bytes = .ok ((chunksExact dt.width bytes).map leVal) := by
  unfold frombuffer
  have h0 : bytes.length ≠ 0 := by simpa [List.length_eq_zero] using hne
  simp [h0, hmod]

/-- Full decode specification used by the element-count claim: element
count is `length / width` and the `j`-th element is the little-endian
value of the `j`-th width-byte slice of the raw buffer. -/
theorem frombuffer_spec (dt : DType) (bytes : List Nat) (hne : bytes ≠ [])
    (hmod : bytes.length % dt.width = 0) :
    ∃ es, frombuffer dt bytes = .ok es ∧
      es.length = bytes.length / dt.width ∧
      ∀ j, j < es.length →
        es[j]? = some (leVal ((bytes.drop (j * dt.width)).take dt.width)) := by
  have hd : dt.width ∣ bytes.length := Nat.dvd_of_mod_eq_zero hmod
  refine ⟨_, frombuffer_ok dt bytes hne hmod, ?_, ?_⟩
  · rw [List.length_map]
    exact chunksGo_length _ _ _ dt.width_pos le_rfl hd
  · intro j hj
    simp only [chunksExact] at hj ⊢
    rw [List.length_map, chunksGo_length _ _ _ dt.width_pos le_rfl hd] at hj
    have hjw : j * dt.width < bytes.length := by
      have h1 : j * dt.width < (bytes.length / dt.width) * dt.width :=
        (Nat.mul_lt_mul_right dt.width_pos).mpr hj
      rwa [Nat.div_mul_cancel hd] at h1
    rw [List.getElem?_map, chunksGo_get _ _ _ _ dt.width_pos le_rfl hjw]
    rfl

end Lemmas

section Claims

/-- C1: for every External Reference whose storage index is absent from
the Storage Blob Index, `convert_final.py`'s `persistent_load` fails with
the fatal missing-storage error, reporting the requested index and a
bounded sample (the first 10, in sorted order) of the indices that are
present; as the result is an `.error` it is never `None`, a zero-filled,
or a default storage.  Second conjunct: any resolution error surfaced by
the unpickling makes the enclosing conversion abort with that error (no
state dict is produced). -/
theorem C1_missing_storage_fatal :
    (∀ (sdata : StorageMap) (es : List PyVal) (i : Int),
      4 ≤ es.length →
      isStorageTag (es.getD 0 .vNone) = true →
      pyIntCoerce (es.getD 2 .vNone) = some i →
      dictLookup sdata i = none →
      finalPersistentLoad sdata (.tup es) =
        .error (.missingStorage i ((sortInts (dictKeys sdata)).take 10)))
    ∧ (∀ (entries : List (String × Blob)) (meta : Meta) (e : ConvError),
      resolveMetaFinal (buildStorageData entries) meta = .error e →
      convertFinalLoad ⟨some meta, entries⟩ = .error e) := by
  constructor
  · intro sdata es i h4 htag hco hlook
    simp only [finalPersistentLoad]
    rw [if_neg (by omega)]
    simp only [htag, Bool.true_eq_false, if_false, hco, hlook]
  · intro entries meta e h
    simp only [convertFinalLoad]
    simp only [h]
    rfl

/-- C1 witness: a reference to index 99 against a blob index holding only
index 0 fails with the missing-storage error carrying 99 and the sample
`[0]`, and the enclosing conversion of a stream containing that reference
aborts with the same error. -/
theorem C1_missing_storage_fatal_witness :
    finalPersistentLoad [(0, [1, 2, 3, 4])]
      (.tup [.vStr "storage", .vStr "FloatStorage", .vStr "99", .vStr "cpu"]) =
      .error (.missingStorage 99 [0]) ∧
    convertFinalLoad ⟨some (.dcons "w"
      (.pref (.tup [.vStr "storage", .vStr "FloatStorage", .vStr "99", .vStr "cpu"])) .dnil),
      [("0", [1, 2, 3, 4])]⟩ = .error (.missingStorage 99 [0]) := by
  constructor
  · exact C1_missing_storage_fatal.1 [(0, [1, 2, 3, 4])]
      [.vStr "storage", .vStr "FloatStorage", .vStr "99", .vStr "cpu"] 99
      (by decide) rfl rfl rfl
  · exact C1_missing_storage_fatal.2 [("0", [1, 2, 3, 4])]
      (.dcons "w"
        (.pref (.tup [.vStr "storage", .vStr "FloatStorage", .vStr "99", .vStr "cpu"])) .dnil)
      (.missingStorage 99 [0]) rfl

/-- C5: every structurally malformed persistent id — a non-tuple, a
tuple with fewer than the 4 required fields, a tag that is not the
literal `"storage"`, or (in `convert_final.py`, which coerces
`saved_id[2]` from string form) a storage-index field `int()` rejects —
makes the resolution callback raise the fatal malformed-reference
`RuntimeError`; the last conjunct shows any such error aborts the whole
deserialization.  `convert_model_v3.py`'s variant takes its index from
the natively-integer position 3 and performs no string coercion, so its
malformedness conditions are the shape and tag ones. -/
theorem C5_malformed_reference_fatal :
    (∀ (sdata : StorageMap) (v : PyVal), pyIsTuple v = false →
      finalPersistentLoad sdata v = .error (.malformedRef .badShape))
    ∧ (∀ (sdata : StorageMap) (es : List PyVal), es.length < 4 →
      finalPersistentLoad sdata (.tup es) = .error (.malformedRef .badShape))
    ∧ (∀ (sdata : StorageMap) (es : List PyVal), 4 ≤ es.length →
      isStorageTag (es.getD 0 .vNone) = false →
      finalPersistentLoad sdata (.tup es) = .error (.malformedRef .badTag))
    ∧ (∀ (sdata : StorageMap) (es : List PyVal), 4 ≤ es.length →
      isStorageTag (es.getD 0 .vNone) = true →
      pyIntCoerce (es.getD 2 .vNone) = none →
      finalPersistentLoad sdata (.tup es) = .error (.malformedRef .badIndex))
    ∧ (∀ (sdata : StorageMap) (v : PyVal), pyIsTuple v = false →
      v3PersistentLoad sdata v = .error (.malformedRef .badShape))
    ∧ (∀ (sdata : StorageMap) (es : List PyVal), es.length < 4 →
      v3PersistentLoad sdata (.tup es) = .error (.malformedRef .badShape))
    ∧ (∀ (sdata : StorageMap) (es : List PyVal), 4 ≤ es.length →
      isStorageTag (es.getD 0 .vNone) = false →
      v3PersistentLoad sdata (.tup es) = .error (.malformedRef .badTag))
    ∧ (∀ (entries : List (String × Blob)) (meta : Meta) (e : ConvError),
      resolveMetaFinal (buildStorageData entries) meta = .error e →
      convertFinalLoad ⟨some meta, entries⟩ = .error e) := by
  refine ⟨?_, ?_, ?_, ?_, ?_, ?_, ?_, ?_⟩
  · intro sdata v hv
    cases v <;> first
      | rfl
      | (exfalso; exact Bool.noConfusion hv)
  · intro sdata es hlen
    simp only [finalPersistentLoad]
    rw [if_pos hlen]
  · intro sdata es h4 htag
    simp only [finalPersistentLoad]
    rw [if_neg (by omega), if_pos htag]
  · intro sdata es h4 htag hco
    simp only [finalPersistentLoad]
    rw [if_neg (by omega)]
    simp only [htag, Bool.true_eq_false, if_false, hco]
  · intro sdata v hv
    cases v <;> first
      | rfl
      | (exfalso; exact Bool.noConfusion hv)
  · intro sdata es hlen
    simp only [v3PersistentLoad]
    rw [if_pos hlen]
  · intro sdata es h4 htag
    simp only [v3PersistentLoad]
    rw [if_neg (by omega), if_pos htag]
  · intro entries meta e h
    simp only [convertFinalLoad]
    simp only [h]
    rfl

/-- C5 witness: a non-tuple, a 1-tuple, a wrong tag, and a non-numeric
index each fail the callbacks with the malformed-reference error at a
concrete input, and a stream holding the wrong-tag reference aborts. -/
theorem C5_malformed_reference_fatal_witness :
    finalPersistentLoad [] (.vInt 5) = .error (.malformedRef .badShape) ∧
    finalPersistentLoad [] (.tup [.vStr "storage"]) = .error (.malformedRef .badShape) ∧
    finalPersistentLoad [] (.tup [.vStr "noise", .vNone, .vNone, .vNone]) =
      .error (.malformedRef .badTag) ∧
    finalPersistentLoad []
      (.tup [.vStr "storage", .vStr "FloatStorage", .vStr "abc", .vStr "cpu"]) =
      .error (.malformedRef .badIndex) ∧
    v3PersistentLoad [] (.vStr "storage") = .error (.malformedRef .badShape) ∧
    v3PersistentLoad [] (.tup [.vStr "storage", .vNone]) = .error (.malformedRef .badShape) ∧
    v3PersistentLoad [] (.tup [.vInt 0, .vNone, .vNone, .vNone]) =
      .error (.malformedRef .badTag) ∧
    convertFinalLoad ⟨some (.pref (.tup [.vStr "noise", .vNone, .vNone, .vNone])), []⟩ =
      .error (.malformedRef .badTag) := by
  refine ⟨?_, ?_, ?_, ?_, ?_, ?_, ?_, ?_⟩
  · exact C5_malformed_reference_fatal.1 [] (.vInt 5) rfl
  · exact C5_malformed_reference_fatal.2.1 [] [.vStr "storage"] (by decide)
  · exact C5_malformed_reference_fatal.2.2.1 [] [.vStr "noise", .vNone, .vNone, .vNone]
      (by decide) rfl
  · exact C5_malformed_reference_fatal.2.2.2.1 []
      [.vStr "storage", .vStr "FloatStorage", .vStr "abc", .vStr "cpu"] (by decide) rfl rfl
  · exact C5_malformed_reference_fatal.2.2.2.2.1 [] (.vStr "storage") rfl
  · exact C5_malformed_reference_fatal.2.2.2.2.2.1 [] [.vStr "storage", .vNone] (by decide)
  · exact C5_malformed_reference_fatal.2.2.2.2.2.2.1 [] [.vInt 0, .vNone, .vNone, .vNone]
      (by decide) rfl
  · exact C5_malformed_reference_fatal.2.2.2.2.2.2.2 []
      (.pref (.tup [.vStr "noise", .vNone, .vNone, .vNone])) (.malformedRef .badTag) rfl

/-- C7: a blob whose byte length is not an exact multiple of the
resolved element type's width always fails `convert_final.py`'s
resolution with `torch.frombuffer`'s length-check `ValueError` (the
spec's malformed-storage error); the result is an `.error`, so no
truncated or padded storage is ever produced. -/
theorem C7_not_multiple_fatal :
    ∀ (sdata : StorageMap) (es : List PyVal) (i : Int) (bytes : Blob),
      4 ≤ es.length →
      isStorageTag (es.getD 0 .vNone) = true →
      pyIntCoerce (es.getD 2 .vNone) = some i →
      dictLookup sdata i = some bytes →
      bytes.length % ((finalDtype (pyStr (es.getD 1 .vNone))).1).width ≠ 0 →
      finalPersistentLoad sdata (.tup es) = .error (.frombufferError .notMultiple) := by
  intro sdata es i bytes h4 htag hco hlook hmod
  have hne : bytes.length ≠ 0 := fun h0 => hmod (by rw [h0]; exact Nat.zero_mod _)
  simp only [finalPersistentLoad]
  rw [if_neg (by omega)]
  simp only [htag, Bool.true_eq_false, if_false, hco, hlook]
  simp only [frombuffer]
  simp only [hne, if_false, hmod, ite_not, if_true]

/-- C7 witness: a 2-byte blob resolved as 4-byte float32 fails with the
not-a-multiple error. -/
theorem C7_not_multiple_fatal_witness :
    finalPersistentLoad [(0, [1, 2])]
      (.tup [.vStr "storage", .vStr "FloatStorage", .vStr "0", .vStr "cpu"]) =
      .error (.frombufferError .notMultiple) := by
  exact C7_not_multiple_fatal [(0, [1, 2])]
    [.vStr "storage", .vStr "FloatStorage", .vStr "0", .vStr "cpu"] 0 [1, 2]
    (by decide) rfl rfl rfl (by decide)

/-- C2 counterexample: the claim says a reference with an element-type
descriptor outside the closed set fails the run with a fatal
unknown-element-type error.  `convert_final.py` (cited lines 96-99)
instead resolves the descriptor `"ExoticStorage"` successfully by
defaulting the interpretation to float32 — the `.ok` result below, whose
`true` flag is the printed fallback warning — so the run does not fail
there. -/
theorem C2_counterexample_final_fallback :
    finalPersistentLoad [(0, [0, 0, 128, 63])]
      (.tup [.vStr "storage", .vStr "ExoticStorage", .vStr "0", .vStr "cpu"]) =
      .ok ⟨⟨.f32, [1065353216]⟩, true⟩ := rfl

/-- C2 amended: only `convert_model_v3.py`'s resolver is strict: an
element-type descriptor matching none of the table's substrings raises
the fatal unknown-storage-type error, and (second conjunct) any such
resolution error aborts the v3 conversion.  `convert_final.py`'s
resolver is lenient: the same situation falls back to float32 with a
printed warning (the `true` flag) and resolution succeeds — a flagged
fallback, not a silent one. -/
theorem C2_amended_unknown_type :
    (∀ (sdata : StorageMap) (es : List PyVal) (i : Int) (bytes : Blob) (s : String),
      4 ≤ es.length →
      isStorageTag (es.getD 0 .vNone) = true →
      es.getD 1 .vNone = .vStr s →
      es.getD 3 .vNone = .vInt i →
      dictLookup sdata i = some bytes →
      strContains s "Float" = false → strContains s "Double" = false →
      strContains s "Half" = false → strContains s "Int" = false →
      strContains s "Long" = false → strContains s "Short" = false →
      strContains s "Byte" = false → strContains s "Char" = false →
      strContains s "Bool" = false →
      v3PersistentLoad sdata (.tup es) = .error (.unknownStorageType s))
    ∧ (∀ (entries : List (String × Blob)) (meta : Meta) (e : ConvError),
      resolveMetaV3 (buildStorageData entries) meta = .error e →
      convertV3Load ⟨some meta, entries⟩ = .error e)
    ∧ (∀ (sdata : StorageMap) (es : List PyVal) (i : Int) (bytes : Blob) (elemsOut : List Nat),
      4 ≤ es.length →
      isStorageTag (es.getD 0 .vNone) = true →
      pyIntCoerce (es.getD 2 .vNone) = some i →
      dictLookup sdata i = some bytes →
      strContains (pyStr (es.getD 1 .vNone)) "FloatStorage" = false →
      strContains (pyStr (es.getD 1 .vNone)) "DoubleStorage" = false →
      strContains (pyStr (es.getD 1 .vNone)) "HalfStorage" = false →
      strContains (pyStr (es.getD 1 .vNone)) "IntStorage" = false →
      strContains (pyStr (es.getD 1 .vNone)) "LongStorage" = false →
      strContains (pyStr (es.getD 1 .vNone)) "ShortStorage" = false →
      strContains (pyStr (es.getD 1 .vNone)) "ByteStorage" = false →
      strContains (pyStr (es.getD 1 .vNone)) "CharStorage" = false →
      strContains (pyStr (es.getD 1 .vNone)) "BoolStorage" = false →
      frombuffer .f32 bytes = .ok elemsOut →
      finalPersistentLoad sdata (.tup es) = .ok ⟨⟨.f32, elemsOut⟩, true⟩) := by
  refine ⟨?_, ?_, ?_⟩
  · intro sdata es i bytes s h4 htag hty hidx hlook hF hD hH hI hL hS hB hC hBo
    simp only [v3PersistentLoad]
    rw [if_neg (by omega)]
    simp only [htag, Bool.true_eq_false, if_false, hidx, hlook, hty]
    simp only [v3Dtype, hF, hD, hH, hI, hL, hS, hB, hC, hBo, Bool.false_eq_true, if_false]
  · intro entries meta e h
    simp only [convertV3Load, h]
    rfl
  · intro sdata es i bytes elemsOut h4 htag hco hlook hF hD hH hI hL hS hB hC hBo hfb
    simp only [finalPersistentLoad]
    rw [if_neg (by omega)]
    simp only [htag, Bool.true_eq_false, if_false, hco, hlook]
    simp only [finalDtype, hF, hD, hH, hI, hL, hS, hB, hC, hBo, Bool.false_eq_true,
      Bool.or_self, if_false]
    simp only [hfb]

/-- C2 amended witness: `"ExoticStorage"` fails `convert_model_v3.py`'s
resolution, aborts the v3 conversion, and is resolved as float32 with
warning by `convert_final.py`. -/
theorem C2_amended_unknown_type_witness :
    v3PersistentLoad [(0, [1, 2, 3, 4])]
      (.tup [.vStr "storage", .vStr "ExoticStorage", .vStr "cpu", .vInt 0]) =
      .error (.unknownStorageType "ExoticStorage") ∧
    convertV3Load ⟨some (.dcons "w"
      (.pref (.tup [.vStr "storage", .vStr "ExoticStorage", .vStr "cpu", .vInt 0])) .dnil),
      [("0", [1, 2, 3, 4])]⟩ = .error (.unknownStorageType "ExoticStorage") ∧
    finalPersistentLoad [(0, [0, 0, 0, 64])]
      (.tup [.vStr "storage", .vStr "WeirdStorage", .vStr "0", .vStr "cpu"]) =
      .ok ⟨⟨.f32, [1073741824]⟩, true⟩ := by
  refine ⟨?_, ?_, ?_⟩
  · exact C2_amended_unknown_type.1 [(0, [1, 2, 3, 4])]
      [.vStr "storage", .vStr "ExoticStorage", .vStr "cpu", .vInt 0] 0 [1, 2, 3, 4]
      "ExoticStorage" (by decide) rfl rfl rfl rfl
      rfl rfl rfl rfl rfl rfl rfl rfl rfl
  · exact C2_amended_unknown_type.2.1 [("0", [1, 2, 3, 4])]
      (.dcons "w"
        (.pref (.tup [.vStr "storage", .vStr "ExoticStorage", .vStr "cpu", .vInt 0])) .dnil)
      (.unknownStorageType "ExoticStorage") rfl
  · exact C2_amended_unknown_type.2.2 [(0, [0, 0, 0, 64])]
      [.vStr "storage", .vStr "WeirdStorage", .vStr "0", .vStr "cpu"] 0 [0, 0, 0, 64]
      [1073741824] (by decide) rfl rfl rfl
      rfl rfl rfl rfl rfl rfl rfl rfl rfl rfl

/-- C3 counterexample: the claim quantifies over every valid triple whose
buffer length is an exact multiple of the element width and asserts a
storage of `len/width` elements results.  An empty blob satisfies the
premise (`0 % 4 = 0`, so the expected storage would have 0 elements), yet
`torch.frombuffer` raises its zero-length `ValueError` and
`convert_final.py`'s resolution fails instead of yielding an empty
storage. -/
theorem C3_counterexample_empty_buffer :
    finalPersistentLoad [(0, [])]
      (.tup [.vStr "storage", .vStr "FloatStorage", .vStr "0", .vStr "cpu"]) =
      .error (.frombufferError .emptyBuffer) ∧
    (0 : Nat) % (DType.f32).width = 0 := ⟨rfl, rfl⟩

/-- C3 amended: for every valid reference whose blob is nonempty and
whose length is an exact multiple of the resolved element width,
`convert_final.py`'s resolution yields a flat storage of exactly
`len/width` elements, the `j`-th being the little-endian (native-order)
bit pattern of bytes `[j*width, (j+1)*width)` of the raw buffer. -/
theorem C3_amended_exact_decode :
    ∀ (sdata : StorageMap) (es : List PyVal) (i : Int) (bytes : Blob) (dt : DType) (w : Bool),
      4 ≤ es.length →
      isStorageTag (es.getD 0 .vNone) = true →
      pyIntCoerce (es.getD 2 .vNone) = some i →
      dictLookup sdata i = some bytes →
      finalDtype (pyStr (es.getD 1 .vNone)) = (dt, w) →
      bytes ≠ [] →
      bytes.length % dt.width = 0 →
      ∃ elemsOut,
        finalPersistentLoad sdata (.tup es) = .ok ⟨⟨dt, elemsOut⟩, w⟩ ∧
        elemsOut.length = bytes.length / dt.width ∧
        ∀ j, j < elemsOut.length →
          elemsOut[j]? = some (leVal ((bytes.drop (j * dt.width)).take dt.width)) := by
  intro sdata es i bytes dt w h4 htag hco hlook hdt hne hmod
  obtain ⟨esx, hfb, hlen, hget⟩ := frombuffer_spec dt bytes hne hmod
  refine ⟨esx, ?_, hlen, hget⟩
  simp only [finalPersistentLoad]
  rw [if_neg (by omega)]
  simp only [htag, Bool.true_eq_false, if_false, hco, hlook, hdt, hfb]

/-- C3 amended witness: the spec's end-to-end scenario 1 — a 16-byte blob
referenced as `FloatStorage` resolves to exactly 4 float32 elements, each
the little-endian bit pattern of its 4-byte slice (here the patterns of
1.0, 2.0, 3.0, 4.0). -/
theorem C3_amended_exact_decode_witness :
    ∃ elemsOut,
      finalPersistentLoad [(0, [0, 0, 128, 63, 0, 0, 0, 64, 0, 0, 64, 64, 0, 0, 128, 64])]
        (.tup [.vStr "storage", .vStr "FloatStorage", .vStr "0", .vStr "cpu"]) =
        .ok ⟨⟨.f32, elemsOut⟩, false⟩ ∧
      elemsOut.length = 4 ∧
      ∀ j, j < elemsOut.length →
        elemsOut[j]? = some (leVal
          ((([0, 0, 128, 63, 0, 0, 0, 64, 0, 0, 64, 64, 0, 0, 128, 64] : List Nat).drop
            (j * 4)).take 4)) := by
  exact C3_amended_exact_decode
    [(0, [0, 0, 128, 63, 0, 0, 0, 64, 0, 0, 64, 64, 0, 0, 128, 64])]
    [.vStr "storage", .vStr "FloatStorage", .vStr "0", .vStr "cpu"] 0
    [0, 0, 128, 63, 0, 0, 0, 64, 0, 0, 64, 64, 0, 0, 128, 64] .f32 false
    (by decide) rfl rfl rfl rfl (by decide) rfl

/-- C4 counterexample: the claim asserts one fixed table across the cited
resolvers.  `convert_model_v2.py` maps the descriptor `"IntStorage"` to
8-byte int64 (the claim requires 4-byte signed 32-bit for Int), fails to
recognize `"ShortStorage"` at all (the claim requires 2-byte int16), and
`convert_model_v3.py` maps `"CharStorage"` to signed int8 (the claim
requires unsigned 8-bit for Char). -/
theorem C4_counterexample_tables_disagree :
    v2Dtype "IntStorage" = some .i64 ∧ DType.width .i64 = 8 ∧
    v2Dtype "ShortStorage" = none ∧
    v3Dtype "CharStorage" = .ok .i8 := ⟨rfl, rfl, rfl, rfl⟩

/-- C4 amended: on the closed descriptor set, `convert_final.py`
implements exactly the claimed table (Float 4-byte f32, Double 8-byte
f64, Half 2-byte f16, Int 4-byte i32, Long 8-byte i64, Short 2-byte i16,
Byte and Char 1-byte unsigned u8, Bool 1-byte bool, no fallback warning);
`convert_model_v3.py` agrees except that CharStorage becomes signed int8;
`convert_model_v2.py` recognizes only Float (f32) and Int/Long (both
8-byte i64) and knows no other descriptor.  The final conjunct fixes the
byte widths. -/
theorem C4_amended_dtype_tables :
    (finalDtype "FloatStorage" = (.f32, false) ∧ finalDtype "DoubleStorage" = (.f64, false) ∧
     finalDtype "HalfStorage" = (.f16, false) ∧ finalDtype "IntStorage" = (.i32, false) ∧
     finalDtype "LongStorage" = (.i64, false) ∧ finalDtype "ShortStorage" = (.i16, false) ∧
     finalDtype "ByteStorage" = (.u8, false) ∧ finalDtype "CharStorage" = (.u8, false) ∧
     finalDtype "BoolStorage" = (.boolT, false))
    ∧ (v3Dtype "FloatStorage" = .ok .f32 ∧ v3Dtype "DoubleStorage" = .ok .f64 ∧
       v3Dtype "HalfStorage" = .ok .f16 ∧ v3Dtype "IntStorage" = .ok .i32 ∧
       v3Dtype "LongStorage" = .ok .i64 ∧ v3Dtype "ShortStorage" = .ok .i16 ∧
       v3Dtype "ByteStorage" = .ok .u8 ∧ v3Dtype "CharStorage" = .ok .i8 ∧
       v3Dtype "BoolStorage" = .ok .boolT)
    ∧ (v2Dtype "FloatStorage" = some .f32 ∧ v2Dtype "IntStorage" = some .i64 ∧
       v2Dtype "LongStorage" = some .i64 ∧ v2Dtype "DoubleStorage" = none ∧
       v2Dtype "HalfStorage" = none ∧ v2Dtype "ShortStorage" = none ∧
       v2Dtype "ByteStorage" = none ∧ v2Dtype "CharStorage" = none ∧
       v2Dtype "BoolStorage" = none)
    ∧ (DType.width .f32 = 4 ∧ DType.width .f64 = 8 ∧ DType.width .f16 = 2 ∧
       DType.width .i32 = 4 ∧ DType.width .i64 = 8 ∧ DType.width .i16 = 2 ∧
       DType.width .u8 = 1 ∧ DType.width .i8 = 1 ∧ DType.width .boolT = 1) :=
  ⟨⟨rfl, rfl, rfl, rfl, rfl, rfl, rfl, rfl, rfl⟩,
   ⟨rfl, rfl, rfl, rfl, rfl, rfl, rfl, rfl, rfl⟩,
   ⟨rfl, rfl, rfl, rfl, rfl, rfl, rfl, rfl, rfl⟩,
   ⟨rfl, rfl, rfl, rfl, rfl, rfl, rfl, rfl, rfl⟩⟩

/-- C6: when the deserialized top-level result is a single-entry mapping
whose sole key is `"model"`, both `convert_final.py` and
`convert_model_v2.py` unwrap exactly one level and hand on the inner
parameter map (first two conjuncts, for an inner map without its own
`"model"` entry, as in the spec's 42-parameter scenario); and in every
case the result is the input with the `"model"`-unwrap step applied at
most twice (`convert_final.py`) respectively at most once
(`convert_model_v2.py`). -/
theorem C6_model_wrapper_unwrap :
    (∀ inner : List (String × PyVal), containsKey inner "model" = false →
      postProcessFinal (.dict [("model", .dict inner)]) = .dict inner)
    ∧ (∀ inner : List (String × PyVal), containsKey inner "model" = false →
      postProcessV2 (.dict [("model", .dict inner)]) = .dict inner)
    ∧ (∀ sd : PyVal, postProcessFinal sd = sd ∨ postProcessFinal sd = modelStep sd ∨
      postProcessFinal sd = modelStep (modelStep sd))
    ∧ (∀ sd : PyVal, postProcessV2 sd = sd ∨ postProcessV2 sd = modelStep sd) := by
  refine ⟨?_, ?_, ?_, ?_⟩
  · intro inner h
    show (if containsKey inner "model" = true then sdGet inner "model" else .dict inner) =
      .dict inner
    rw [if_neg (by simp [h])]
  · intro inner h
    show (if ([("model", PyVal.dict inner)].length = 1 ∧
        containsKey [("model", PyVal.dict inner)] "model" = true)
      then sdGet [("model", PyVal.dict inner)] "model"
      else .dict [("model", PyVal.dict inner)]) = .dict inner
    rw [if_pos ⟨rfl, rfl⟩]
    rfl
  · intro sd
    cases sd with
    | dict entries =>
      by_cases hc : entries.length = 1 ∧ containsKey entries "model" = true
      · right; right
        simp only [postProcessFinal]
        rw [if_pos hc]
        congr 1
        simp only [modelStep]
        rw [if_pos hc.2]
      · right; left
        simp only [postProcessFinal]
        rw [if_neg hc]
    | vNone => exact Or.inl rfl
    | vInt n => exact Or.inl rfl
    | vStr s => exact Or.inl rfl
    | classObj n => exact Or.inl rfl
    | storageObj d e => exact Or.inl rfl
    | tup es => exact Or.inl rfl
  · intro sd
    cases sd with
    | dict entries =>
      by_cases hc : entries.length = 1 ∧ containsKey entries "model" = true
      · right
        simp only [postProcessV2]
        rw [if_pos hc]
        simp only [modelStep]
        rw [if_pos hc.2]
      · left
        simp only [postProcessV2]
        rw [if_neg hc]
    | vNone => exact Or.inl rfl
    | vInt n => exact Or.inl rfl
    | vStr s => exact Or.inl rfl
    | classObj n => exact Or.inl rfl
    | storageObj d e => exact Or.inl rfl
    | tup es => exact Or.inl rfl

/-- C6 witness: a `{"model": {...2 parameters...}}` wrapper unwraps to
the inner 2-entry map in both scripts, and the at-most-twice bound holds
at a concrete nested input. -/
theorem C6_model_wrapper_unwrap_witness :
    postProcessFinal (.dict [("model", .dict [("w1", .vInt 1), ("w2", .vInt 2)])]) =
      .dict [("w1", .vInt 1), ("w2", .vInt 2)] ∧
    postProcessV2 (.dict [("model", .dict [("w1", .vInt 1), ("w2", .vInt 2)])]) =
      .dict [("w1", .vInt 1), ("w2", .vInt 2)] ∧
    (postProcessFinal (.dict [("a", .vInt 1)]) = .dict [("a", .vInt 1)] ∨
      postProcessFinal (.dict [("a", .vInt 1)]) = modelStep (.dict [("a", .vInt 1)]) ∨
      postProcessFinal (.dict [("a", .vInt 1)]) =
        modelStep (modelStep (.dict [("a", .vInt 1)]))) := by
  refine ⟨?_, ?_, ?_⟩
  · exact C6_model_wrapper_unwrap.1 [("w1", .vInt 1), ("w2", .vInt 2)] rfl
  · exact C6_model_wrapper_unwrap.2.1 [("w1", .vInt 1), ("w2", .vInt 2)] rfl
  · exact C6_model_wrapper_unwrap.2.2.1 (.dict [("a", .vInt 1)])

/-- C8 counterexample: the claim says the build records exactly the
entries whose name parses as a non-negative base-10 integer and skips
the rest.  A directory entry named `"1_1"` — not a base-10 numeral — is
nevertheless recorded (under index 11, because Python's `int()` accepts
underscores), while `"+5"`, which Python's `int()` does parse to the
non-negative 5, is skipped by the `[0-9]*` glob prefilter, so under
either reading of "parses" the recorded set is wrong; and
`convert_model_v2.py`'s unglobbed variant even records the negative
index `-5`. -/
theorem C8_counterexample_build_index :
    buildStorageData [("1_1", [7]), ("+5", [8])] = [(11, [7])] ∧
    specParsesNonNegBase10 "1_1" = false ∧
    pyIntOfStr "+5" = some 5 ∧
    dictLookup (buildStorageData [("1_1", [7]), ("+5", [8])]) 5 = none ∧
    v2BuildStorageFiles [("-5", [3])] = [(-5, [3])] := ⟨rfl, rfl, rfl, rfl, rfl⟩

/-- C8 amended: building the Storage Blob Index records `index -> bytes`
for exactly those immediate entries whose name starts with a decimal
digit (the `[0-9]*` glob) and is accepted by Python's `int()` — which
admits surrounding whitespace and underscores between digits — and every
recorded blob is the entire contents of such an entry; all other entries
are silently skipped and the build itself is total (it never raises).
`convert_model_v2.py`'s variant iterates without the glob, so it records
exactly the `int()`-accepted names, negative ones included. -/
theorem C8_amended_build_index :
    (∀ (entries : List (String × Blob)) (idx : Int),
      (dictLookup (buildStorageData entries) idx).isSome = true ↔
        ∃ e ∈ entries, globDigit e.1 = true ∧ pyIntOfStr e.1 = some idx)
    ∧ (∀ (entries : List (String × Blob)) (idx : Int) (b : Blob),
      dictLookup (buildStorageData entries) idx = some b →
        ∃ name, (name, b) ∈ entries ∧ globDigit name = true ∧ pyIntOfStr name = some idx)
    ∧ (∀ (entries : List (String × Blob)) (idx : Int),
      (dictLookup (v2BuildStorageFiles entries) idx).isSome = true ↔
        ∃ e ∈ entries, pyIntOfStr e.1 = some idx) := by
  refine ⟨?_, ?_, ?_⟩
  · intro entries idx
    unfold buildStorageData
    rw [dictLookup_foldl_buildStep_isSome]
    simp only [dictLookup_nil, Option.isSome_none, Bool.false_eq_true, false_or]
    constructor
    · rintro ⟨e, he, hp⟩
      rw [mem_sortByName, List.mem_filter] at he
      exact ⟨e, he.1, he.2, hp⟩
    · rintro ⟨e, he, hg, hp⟩
      exact ⟨e, (mem_sortByName _ _).mpr (List.mem_filter.mpr ⟨he, hg⟩), hp⟩
  · intro entries idx b hl
    unfold buildStorageData at hl
    rcases dictLookup_foldl_buildStep_provenance _ _ _ _ hl with h0 | ⟨name, hmem, hp⟩
    · exact absurd h0 (by simp)
    · rw [mem_sortByName, List.mem_filter] at hmem
      exact ⟨name, hmem.1, hmem.2, hp⟩
  · intro entries idx
    unfold v2BuildStorageFiles
    rw [dictLookup_foldl_buildStep_isSome]
    simp only [dictLookup_nil, Option.isSome_none, Bool.false_eq_true, false_or]

/-- C8 amended witness: the entry `"07"` is recorded under index 7 with
its full contents, and `"junk"` is skipped without error. -/
theorem C8_amended_build_index_witness :
    (dictLookup (buildStorageData [("07", [9]), ("junk", [1])]) 7).isSome = true ∧
    (∃ name, (name, [9]) ∈ [("07", ([9] : Blob)), ("junk", [1])] ∧
      globDigit name = true ∧ pyIntOfStr name = some 7) ∧
    (dictLookup (v2BuildStorageFiles [("junk", [1])]) 7).isSome = false := by
  refine ⟨?_, ?_, ?_⟩
  · exact (C8_amended_build_index.1 [("07", [9]), ("junk", [1])] 7).mpr
      ⟨("07", [9]), by simp, rfl, rfl⟩
  · exact C8_amended_build_index.2.1 [("07", [9]), ("junk", [1])] 7 [9] rfl
  · have h := C8_amended_build_index.2.2 [("junk", [1])] 7
    cases hval : (dictLookup (v2BuildStorageFiles [("junk", [1])]) 7).isSome
    · rfl
    · rcases h.mp hval with ⟨e, he, hp⟩
      simp only [List.mem_singleton] at he
      rw [he] at hp
      exact absurd hp (by decide)

/-- C9: `convert_final.py`'s second wrapper check (lines 132-136) does
not require a single-entry mapping: any deserialized mapping that still
has a `"model"` key after the first, size-guarded unwrap — here one with
at least two entries, so the first unwrap does not fire — is replaced
wholesale by the value stored under `"model"`, collapsing a parameter
map that legitimately contains an entry named `"model"`. -/
theorem C9_second_unwrap_collapses :
    ∀ entries : List (String × PyVal), 2 ≤ entries.length →
      containsKey entries "model" = true →
      postProcessFinal (.dict entries) = sdGet entries "model" := by
  intro entries h2 hc
  simp only [postProcessFinal]
  rw [if_neg (fun hcon => by omega)]
  simp only [modelStep]
  rw [if_pos hc]

/-- C9 witness: a two-entry parameter map containing a legitimate
`"model"` entry collapses to that entry's value. -/
theorem C9_second_unwrap_collapses_witness :
    postProcessFinal (.dict [("classifier.weight", .vInt 1), ("model", .vInt 7)]) = .vInt 7 := by
  exact C9_second_unwrap_collapses [("classifier.weight", .vInt 1), ("model", .vInt 7)]
    (by decide) rfl

/-- C10: `convert_model_v2.py`'s `persistent_load` is a total function
into `Option` — in the embedding it cannot raise by construction, and
every failure category of the claim returns `none`: a non-tuple, a tuple
shorter than 3, the `IndexError` on `saved_id[3]` for a 3-tuple, a
storage-index value that is not an integer, an index absent from
`storage_files`, a non-string or unknown storage type, and a
`torch.frombuffer` failure during loading. -/
theorem C10_v2_total_returns_none :
    (∀ (sf : StorageMap) (v : PyVal), pyIsTuple v = false →
      v2PersistentLoad sf v = none)
    ∧ (∀ (sf : StorageMap) (es : List PyVal), es.length < 3 →
      v2PersistentLoad sf (.tup es) = none)
    ∧ (∀ (sf : StorageMap) (es : List PyVal), es.length = 3 →
      v2PersistentLoad sf (.tup es) = none)
    ∧ (∀ (sf : StorageMap) (es : List PyVal), 4 ≤ es.length →
      pyIsInt (es.getD 3 .vNone) = false →
      v2PersistentLoad sf (.tup es) = none)
    ∧ (∀ (sf : StorageMap) (es : List PyVal) (n : Int), 4 ≤ es.length →
      es.getD 3 .vNone = .vInt n → dictLookup sf n = none →
      v2PersistentLoad sf (.tup es) = none)
    ∧ (∀ (sf : StorageMap) (es : List PyVal) (n : Int) (bytes : Blob), 4 ≤ es.length →
      es.getD 3 .vNone = .vInt n → dictLookup sf n = some bytes →
      pyIsStr (es.getD 1 .vNone) = false →
      v2PersistentLoad sf (.tup es) = none)
    ∧ (∀ (sf : StorageMap) (es : List PyVal) (n : Int) (bytes : Blob) (s : String),
      4 ≤ es.length →
      es.getD 3 .vNone = .vInt n → dictLookup sf n = some bytes →
      es.getD 1 .vNone = .vStr s → v2Dtype s = none →
      v2PersistentLoad sf (.tup es) = none)
    ∧ (∀ (sf : StorageMap) (es : List PyVal) (n : Int) (bytes : Blob) (s : String)
        (dt : DType) (fe : FBError), 4 ≤ es.length →
      es.getD 3 .vNone = .vInt n → dictLookup sf n = some bytes →
      es.getD 1 .vNone = .vStr s → v2Dtype s = some dt →
      frombuffer dt bytes = .error fe →
      v2PersistentLoad sf (.tup es) = none) := by
  refine ⟨?_, ?_, ?_, ?_, ?_, ?_, ?_, ?_⟩
  · intro sf v hv
    cases v <;> first
      | rfl
      | (exfalso; exact Bool.noConfusion hv)
  · intro sf es hlen
    simp only [v2PersistentLoad]
    rw [if_pos hlen]
  · intro sf es hlen
    simp only [v2PersistentLoad]
    rw [if_neg (by omega), if_pos (by omega)]
  · intro sf es h4 hni
    simp only [v2PersistentLoad]
    rw [if_neg (by omega), if_neg (by omega)]
    cases hv : es.getD 3 .vNone with
    | vInt n => rw [hv] at hni; exact absurd hni (by simp [pyIsInt])
    | vNone => rfl
    | vStr s => rfl
    | classObj c => rfl
    | storageObj d e => rfl
    | dict d => rfl
    | tup t => rfl
  · intro sf es n h4 hidx hlook
    simp only [v2PersistentLoad]
    rw [if_neg (by omega), if_neg (by omega)]
    simp only [hidx, hlook]
  · intro sf es n bytes h4 hidx hlook hns
    simp only [v2PersistentLoad]
    rw [if_neg (by omega), if_neg (by omega)]
    simp only [hidx, hlook]
    cases hv : es.getD 1 .vNone with
    | vStr s => rw [hv] at hns; exact absurd hns (by simp [pyIsStr])
    | vNone => rfl
    | vInt m => rfl
    | classObj c => rfl
    | storageObj d e => rfl
    | dict d => rfl
    | tup t => rfl
  · intro sf es n bytes s h4 hidx hlook hty hdt
    simp only [v2PersistentLoad]
    rw [if_neg (by omega), if_neg (by omega)]
    simp only [hidx, hlook, hty, hdt]
  · intro sf es n bytes s dt fe h4 hidx hlook hty hdt hfb
    simp only [v2PersistentLoad]
    rw [if_neg (by omega), if_neg (by omega)]
    simp only [hidx, hlook, hty, hdt, hfb]

/-- C10 witness: each failure category at a concrete input returns
`None` from `convert_model_v2.py`'s resolver. -/
theorem C10_v2_total_returns_none_witness :
    v2PersistentLoad [] (.vStr "storage") = none ∧
    v2PersistentLoad [] (.tup [.vStr "storage"]) = none ∧
    v2PersistentLoad [] (.tup [.vStr "storage", .vStr "FloatStorage", .vStr "cpu"]) = none ∧
    v2PersistentLoad []
      (.tup [.vStr "storage", .vStr "FloatStorage", .vStr "cpu", .vStr "0"]) = none ∧
    v2PersistentLoad []
      (.tup [.vStr "storage", .vStr "FloatStorage", .vStr "cpu", .vInt 5]) = none ∧
    v2PersistentLoad [(5, [1, 2, 3, 4])]
      (.tup [.vStr "storage", .classObj "FloatStorage", .vStr "cpu", .vInt 5]) = none ∧
    v2PersistentLoad [(5, [1, 2, 3, 4])]
      (.tup [.vStr "storage", .vStr "BoolStorage", .vStr "cpu", .vInt 5]) = none ∧
    v2PersistentLoad [(5, [1, 2])]
      (.tup [.vStr "storage", .vStr "FloatStorage", .vStr "cpu", .vInt 5]) = none := by
  refine ⟨?_, ?_, ?_, ?_, ?_, ?_, ?_, ?_⟩
  · exact C10_v2_total_returns_none.1 [] (.vStr "storage") rfl
  · exact C10_v2_total_returns_none.2.1 [] [.vStr "storage"] (by decide)
  · exact C10_v2_total_returns_none.2.2.1 []
      [.vStr "storage", .vStr "FloatStorage", .vStr "cpu"] (by decide)
  · exact C10_v2_total_returns_none.2.2.2.1 []
      [.vStr "storage", .vStr "FloatStorage", .vStr "cpu", .vStr "0"] (by decide) rfl
  · exact C10_v2_total_returns_none.2.2.2.2.1 []
      [.vStr "storage", .vStr "FloatStorage", .vStr "cpu", .vInt 5] 5 (by decide) rfl rfl
  · exact C10_v2_total_returns_none.2.2.2.2.2.1 [(5, [1, 2, 3, 4])]
      [.vStr "storage", .classObj "FloatStorage", .vStr "cpu", .vInt 5] 5 [1, 2, 3, 4]
      (by decide) rfl rfl rfl
  · exact C10_v2_total_returns_none.2.2.2.2.2.2.1 [(5, [1, 2, 3, 4])]
      [.vStr "storage", .vStr "BoolStorage", .vStr "cpu", .vInt 5] 5 [1, 2, 3, 4]
      "BoolStorage" (by decide) rfl rfl rfl rfl
  · exact C10_v2_total_returns_none.2.2.2.2.2.2.2 [(5, [1, 2])]
      [.vStr "storage", .vStr "FloatStorage", .vStr "cpu", .vInt 5] 5 [1, 2]
      "FloatStorage" .f32 .notMultiple (by decide) rfl rfl rfl rfl rfl

end Claims

end EffNetConvert
